import Mathlib

/-!
Shallow embedding of the planning workflow of the repository
(`src/unnamed/part_000`: answer route, `src/unnamed/part_001`: planning
state route and question generation, `src/src/components/PlanningTab.tsx`:
lock-button eligibility gate).

Modelling conventions:
* SQLite rows become Lean structures; the database becomes a `Db` record of
  three row lists (`tasks`, `planning_questions`, `planning_specs`).
* The `options` column is stored in the database as a JSON string and parsed
  back on every read; since `JSON.parse (JSON.stringify x) = x` on this data,
  the model keeps the structured value `Option (List Choice)` directly.
* `datetime('now')` timestamps are modelled as an abstract `Nat` parameter
  `now` passed to the operation.
* `crypto.randomUUID()` is modelled as an abstract id supply
  `freshId : Nat → String`, applied to the running counter, one fresh id per
  generated question.
* JavaScript truthiness of a nullable string column (`!x`, `q.answer`) is:
  false exactly on `null` and the empty string; `truthyAnswer` models this.
* `Math.round ((answered / total) * 100)` is modelled as round-half-up of
  the exact rational, `(200 * answered + total) / (2 * total)` over `Nat`.
  IEEE-double evaluation deviates from the exact model only at exact
  half-integer ties, where the rounded product can fall just below the tie
  (23/40 evaluates to 57.49999999999999 and rounds to 57, while the exact
  tie 57.5 rounds up to 58); every theorem below therefore asserts about
  the percentage only tie-robust facts, or facts on domains where the
  exact model and IEEE evaluation coincide.
-/

namespace MissionControl

/-- A `{id, label}` choice entry as produced by the generation route. -/
structure Choice where
  id : String
  label : String
deriving DecidableEq

/-- A row of the `planning_questions` table. -/
structure Question where
  id : String
  task_id : String
  category : String
  question : String
  question_type : String
  options : Option (List Choice)
  answer : Option String
  answered_at : Option Nat
  sort_order : Nat
deriving DecidableEq

/-- A row of the `tasks` table (the fields the planning routes touch). -/
structure Task where
  id : String
  status : String
deriving DecidableEq

/-- A row of the `planning_specs` table (the fields the planning routes touch). -/
structure SpecRow where
  task_id : String
  spec_markdown : String
  created_at : Nat
deriving DecidableEq

/-- The database state seen by the planning routes. -/
structure Db where
  tasks : List Task
  questions : List Question
  specs : List SpecRow
deriving DecidableEq

/-- The `progress` object of the planning read model. -/
structure Progress where
  total : Nat
  answered : Nat
  percentage : Nat
deriving DecidableEq

/-- The `PlanningState` read model returned by the GET route. -/
structure PlanningState where
  questions : List Question
  spec : Option SpecRow
  progress : Progress
  isLocked : Bool
deriving DecidableEq

/-- Outcome of the GET planning-state route. -/
inductive ReadResult where
  | notFound
  | ok (st : PlanningState)
deriving DecidableEq

/-- Outcome of the POST generation route. -/
inductive GenResult where
  | notFound
  | alreadyGenerated
  | ok (st : PlanningState)
deriving DecidableEq

/-- Outcome of the POST answer route. -/
inductive AnswerResult where
  | invalidInput
  | notFound
  | locked
  | ok (q : Question)
  | internalError
deriving DecidableEq

/-- A question template of the catalog: prompt text and optional choice labels. -/
structure QTemplate where
  question : String
  options : Option (List String)
deriving DecidableEq

/-- The `QUESTION_TEMPLATES` constant of `src/unnamed/part_001`, keyed by
category name. -/
def QUESTION_TEMPLATES : String → List QTemplate
  | "goal" =>
    [⟨"What is the primary outcome or goal of this task?",
      some ["Generate leads/sales", "Provide information", "Collect user data",
            "Build brand awareness", "Other"]⟩,
     ⟨"How will you measure success?",
      some ["Conversion rate", "Page views/traffic", "Form submissions",
            "User engagement", "Other"]⟩]
  | "audience" =>
    [⟨"Who is the primary target audience?",
      some ["B2B professionals", "B2C consumers", "Existing customers",
            "New prospects", "Other"]⟩,
     ⟨"What problem does your audience face that this addresses?", none⟩]
  | "scope" =>
    [⟨"What is included in this task?", none⟩,
     ⟨"What is explicitly NOT included (out of scope)?", none⟩]
  | "design" =>
    [⟨"Are there any reference sites or designs to follow?", none⟩,
     ⟨"What is the visual style/tone?",
      some ["Professional/Corporate", "Modern/Minimal", "Bold/Creative",
            "Friendly/Casual", "Other"]⟩,
     ⟨"Do you have brand colors or assets to use?",
      some ["Yes, I will provide them", "No, use your best judgment",
            "Use existing brand from website", "Other"]⟩]
  | "content" =>
    [⟨"Do you have the content/copy ready?",
      some ["Yes, I will provide it", "No, please write it",
            "I have rough notes to expand", "Other"]⟩,
     ⟨"Are there specific messages or points that must be included?", none⟩]
  | "technical" =>
    [⟨"What technology/platform should be used?",
      some ["Static HTML/CSS", "React/Next.js", "WordPress", "No preference",
            "Other"]⟩,
     ⟨"Are there any integrations needed?",
      some ["Form submission to email", "CRM integration", "Analytics tracking",
            "None needed", "Other"]⟩]
  | "timeline" =>
    [⟨"When do you need this completed?",
      some ["ASAP (within 24 hours)", "This week", "Next week", "No rush",
            "Specific date"]⟩]
  | "constraints" =>
    [⟨"Are there any specific constraints or requirements?", none⟩,
     ⟨"Is there a budget or resource limit?",
      some ["No budget limit", "Keep it simple/minimal", "Medium complexity okay",
            "Other"]⟩]
  | _ => []

/-- The fixed category iteration order of the generation route. -/
def categories : List String :=
  ["goal", "audience", "scope", "design", "content", "technical", "timeline",
   "constraints"]

/-- The catalog flattened in category order, then template order within a
category: exactly the iteration order of the two nested `for` loops of the
generation route. -/
def catalogEntries : List (String × QTemplate) :=
  categories.flatMap (fun c => (QUESTION_TEMPLATES c).map (fun t => (c, t)))

/-- JavaScript truthiness of the nullable `answer` column: `null` and the
empty string are falsy, every other string is truthy. -/
def truthyAnswer : Option String → Bool
  | none => false
  | some s => !(s == "")

/-- The percentage computation of the GET route:
`total > 0 ? Math.round((answered / total) * 100) : 0`, with `Math.round` of
the double product modelled as round-half-up of the exact rational,
`(200 * answered + total) / (2 * total)` in natural division. The model and
the IEEE-double computation agree everywhere except possibly at exact
half-integer ties (such as answered 23 of total 40, where the doubles give
57.49999999999999, hence 57, and the exact tie 57.5 rounds up to 58); both
always land on the floor or the ceiling of the exact ratio, so theorems
assert about this value only tie-robust facts or facts on domains where
model and doubles coincide. -/
def progressPercentage (answered total : Nat) : Nat :=
  if 0 < total then (200 * answered + total) / (2 * total) else 0

/-- Insert a question into a list sorted by `sort_order` (helper for the SQL
`ORDER BY sort_order`). -/
def insertBySort (q : Question) : List Question → List Question
  | [] => [q]
  | x :: xs => if q.sort_order ≤ x.sort_order then q :: x :: xs
               else x :: insertBySort q xs

/-- The SQL `ORDER BY sort_order` of the planning routes, as insertion sort. -/
def sortBySort (l : List Question) : List Question :=
  l.foldr insertBySort []

/-- The choice-id assignment of the generation route:
`options.map((label, idx) => ({ id: String.fromCharCode(65 + idx), label }))`. -/
def mkChoices (opts : List String) : List Choice :=
  opts.enum.map (fun p => { id := String.mk [Char.ofNat (65 + p.1)], label := p.2 })

/-- One row inserted by the generation loop body. -/
def mkQuestion (taskId qid cat : String) (t : QTemplate) (sortOrder : Nat) :
    Question :=
  { id := qid
    task_id := taskId
    category := cat
    question := t.question
    question_type := if t.options.isSome then "multiple_choice" else "text"
    options := t.options.map mkChoices
    answer := none
    answered_at := none
    sort_order := sortOrder }

/-- The nested generation loops of the POST route, with the running
`sortOrder` counter (`sortOrder++`, never reset between categories). -/
def genLoop (taskId : String) (freshId : Nat → String) :
    List (String × QTemplate) → Nat → List Question
  | [], _ => []
  | e :: rest, sortOrder =>
      mkQuestion taskId (freshId sortOrder) e.1 e.2 sortOrder ::
        genLoop taskId freshId rest (sortOrder + 1)

/-- The full batch of questions inserted by one successful generate call. -/
def generatedQuestions (taskId : String) (freshId : Nat → String) :
    List Question :=
  genLoop taskId freshId catalogEntries 0

/-- The task-scoped question rows as selected by the planning routes:
`SELECT * FROM planning_questions WHERE task_id = ? ORDER BY sort_order`. -/
def selectQuestions (db : Db) (taskId : String) : List Question :=
  sortBySort (db.questions.filter (fun q => q.task_id == taskId))

/-- The `PlanningState` object assembled by the GET route for an existing
task: questions ordered by `sort_order`, the optional spec row, the derived
progress counters, and `isLocked = !!spec`. -/
def assembledState (db : Db) (taskId : String) : PlanningState :=
  { questions := selectQuestions db taskId
    spec := db.specs.find? (fun s => s.task_id == taskId)
    progress :=
      { total := (selectQuestions db taskId).length
        answered :=
          ((selectQuestions db taskId).filter (fun q => truthyAnswer q.answer)).length
        percentage :=
          progressPercentage
            ((selectQuestions db taskId).filter (fun q => truthyAnswer q.answer)).length
            (selectQuestions db taskId).length }
    isLocked := (db.specs.find? (fun s => s.task_id == taskId)).isSome }

/-- `GET /api/tasks/[id]/planning` of `src/unnamed/part_001`: 404 when the
task row is absent, otherwise the assembled planning read model. -/
def readPlanning (db : Db) (taskId : String) : ReadResult :=
  match db.tasks.find? (fun t => t.id == taskId) with
  | none => ReadResult.notFound
  | some _ => ReadResult.ok (assembledState db taskId)

/-- The database after a successful generate call: the task status is set to
`planning` and the generated batch is inserted. -/
def generatedDb (db : Db) (taskId : String) (freshId : Nat → String) : Db :=
  { tasks := db.tasks.map (fun t =>
      if t.id == taskId then { t with status := "planning" } else t)
    questions := db.questions ++ generatedQuestions taskId freshId
    specs := db.specs }

/-- The `PlanningState` returned by a successful generate call: the freshly
inserted rows re-selected in `sort_order`, no spec, zero progress. -/
def generatedState (db : Db) (taskId : String) (freshId : Nat → String) :
    PlanningState :=
  { questions := selectQuestions (generatedDb db taskId freshId) taskId
    spec := none
    progress :=
      { total := (selectQuestions (generatedDb db taskId freshId) taskId).length
        answered := 0
        percentage := 0 }
    isLocked := false }

/-- `POST /api/tasks/[id]/planning` of `src/unnamed/part_001`: generates the
question battery for a task. -/
def generateOp (db : Db) (taskId : String) (freshId : Nat → String) :
    GenResult × Db :=
  match db.tasks.find? (fun t => t.id == taskId) with
  | none => (GenResult.notFound, db)
  | some _ =>
    if 0 < (db.questions.filter (fun q => q.task_id == taskId)).length then
      (GenResult.alreadyGenerated, db)
    else
      (GenResult.ok (generatedState db taskId freshId),
       generatedDb db taskId freshId)

/-- The row update applied by the answer route:
`UPDATE planning_questions SET answer = ?, answered_at = datetime('now')
WHERE id = ?`. -/
def updateAnswerRow (questionId value : String) (now : Nat) (q : Question) :
    Question :=
  if q.id == questionId then { q with answer := some value, answered_at := some now }
  else q

/-- The database after the answer route's UPDATE statement ran. -/
def updatedDb (db : Db) (questionId value : String) (now : Nat) : Db :=
  { tasks := db.tasks
    questions := db.questions.map (updateAnswerRow questionId value now)
    specs := db.specs }

/-- `POST /api/tasks/[id]/planning/answer` of `src/unnamed/part_000`:
rejects a missing/empty `questionId` or `answer` (400), a question id that
does not exist under the supplied task (404), and a task that already has a
spec row (400 Locked); otherwise updates the row and returns the re-selected
updated question. -/
def answerOp (db : Db) (taskId questionId value : String) (now : Nat) :
    AnswerResult × Db :=
  if questionId == "" || value == "" then (AnswerResult.invalidInput, db)
  else
    match db.questions.find? (fun q => q.id == questionId && q.task_id == taskId) with
    | none => (AnswerResult.notFound, db)
    | some _ =>
      match db.specs.find? (fun s => s.task_id == taskId) with
      | some _ => (AnswerResult.locked, db)
      | none =>
        match (updatedDb db questionId value now).questions.find?
            (fun q => q.id == questionId) with
        | some uq => (AnswerResult.ok uq, updatedDb db questionId value now)
        | none => (AnswerResult.internalError, updatedDb db questionId value now)

/-- The lock-button eligibility gate of `PlanningTab.tsx`:
`state.progress.percentage === 100`. -/
def lockEligible (st : PlanningState) : Bool :=
  st.progress.percentage == 100

/-- Extract the planning state from a read outcome. -/
def stateOf : ReadResult → Option PlanningState
  | ReadResult.notFound => none
  | ReadResult.ok st => some st

/-- Data-model invariants of §3/§6 of the specification: question ids are
nonempty (they are UUIDs), question ids are unique (primary key), and a Spec
row exists only for a task with at least one question (the lock transition
requires `total > 0`). -/
def WellFormed (db : Db) : Prop :=
  (∀ q ∈ db.questions, q.id ≠ "") ∧
  (db.questions.map (fun q => q.id)).Nodup ∧
  ∀ s ∈ db.specs, ∃ q ∈ db.questions, q.task_id = s.task_id

/-! Concrete databases used by witnesses and counterexamples. -/

/-- A stub id supply standing in for `crypto.randomUUID()`. -/
def fStub : Nat → String := fun n => toString n

/-- An answered question row of task `t1`. -/
def q1row : Question :=
  { id := "q1", task_id := "t1", category := "goal",
    question := "What is the primary outcome or goal of this task?",
    question_type := "text", options := none, answer := some "old",
    answered_at := some 1, sort_order := 0 }

/-- An unanswered question row of task `t1`. -/
def q2row : Question :=
  { id := "q2", task_id := "t1", category := "scope",
    question := "What is included in this task?",
    question_type := "text", options := none, answer := none,
    answered_at := none, sort_order := 1 }

/-- A task `t1` mid-planning: two questions, one answered, no spec. -/
def dbAns : Db :=
  { tasks := [{ id := "t1", status := "planning" }],
    questions := [q1row, q2row], specs := [] }

/-- The planning state the GET route assembles for `dbAns`. -/
def stAns : PlanningState :=
  { questions := [q1row, q2row], spec := none,
    progress := { total := 2, answered := 1, percentage := 50 },
    isLocked := false }

/-- A third, unanswered question row of task `t1`. -/
def q3row : Question :=
  { id := "q3", task_id := "t1", category := "design",
    question := "Are there any reference sites or designs to follow?",
    question_type := "text", options := none, answer := none,
    answered_at := none, sort_order := 2 }

/-- A task `t1` with three questions of which one is answered: the read
model reports 33 percent. -/
def dbC4 : Db :=
  { tasks := [{ id := "t1", status := "planning" }],
    questions := [q1row, q2row, q3row], specs := [] }

/-- The planning state the GET route assembles for `dbC4`. -/
def stC4 : PlanningState :=
  { questions := [q1row, q2row, q3row], spec := none,
    progress := { total := 3, answered := 1, percentage := 33 },
    isLocked := false }

/-- A fresh task `t1` with no questions yet. -/
def dbFresh : Db :=
  { tasks := [{ id := "t1", status := "new" }], questions := [], specs := [] }

/-- An answered question row of the locked task `t1`. -/
def qLockedRow : Question :=
  { id := "q1", task_id := "t1", category := "goal",
    question := "What is the primary outcome or goal of this task?",
    question_type := "text", options := none, answer := some "done",
    answered_at := some 2, sort_order := 0 }

/-- A task `t1` whose plan is locked: one answered question and a spec row. -/
def dbLocked : Db :=
  { tasks := [{ id := "t1", status := "executing" }],
    questions := [qLockedRow],
    specs := [{ task_id := "t1", spec_markdown := "# Spec", created_at := 3 }] }

/-- A question row owned by task `t2`, used for cross-task id confusion. -/
def qCrossRow : Question :=
  { id := "q1", task_id := "t2", category := "goal",
    question := "What is the primary outcome or goal of this task?",
    question_type := "text", options := none, answer := none,
    answered_at := none, sort_order := 0 }

/-- Two tasks where question `q1` belongs to `t2`, not `t1`. -/
def dbCross : Db :=
  { tasks := [{ id := "t1", status := "new" }, { id := "t2", status := "new" }],
    questions := [qCrossRow], specs := [] }

/-- Row `i` of a 200-question set in which the first 199 are answered. -/
def bigQuestion (i : Nat) : Question :=
  { id := toString i, task_id := "t1", category := "goal", question := "q",
    question_type := "text", options := none,
    answer := if i < 199 then some "yes" else none, answered_at := none,
    sort_order := i }

/-- A task with 200 questions of which 199 are answered: the rounded
percentage is `Math.round(99.5) = 100` although one question is unanswered. -/
def bigDb : Db :=
  { tasks := [{ id := "t1", status := "planning" }],
    questions := (List.range 200).map bigQuestion,
    specs := [] }

/-! Helper lemmas. -/

theorem percentage_eq_100_iff (a t : Nat) (h1 : 0 < t) (h2 : t ≤ 199)
    (ha : a ≤ t) : progressPercentage a t = 100 ↔ a = t := by
  unfold progressPercentage
  rw [if_pos h1]
  constructor
  · intro h
    have h100 : 100 ≤ (200 * a + t) / (2 * t) := h.ge
    have := (Nat.le_div_iff_mul_le (show (0 : Nat) < 2 * t by omega)).mp h100
    omega
  · rintro rfl
    have ht2 : 2 * a > 0 := by omega
    have hsplit : 200 * a + a = 2 * a * 100 + a := by ring
    rw [hsplit, Nat.mul_add_div ht2, Nat.div_eq_of_lt (by omega)]

theorem progressPercentage_zero (a : Nat) : progressPercentage a 0 = 0 := rfl

theorem progressPercentage_bounds (a t : Nat) (ht : 0 < t) :
    100 * a / t ≤ progressPercentage a t ∧
    progressPercentage a t * t < 100 * a + t := by
  unfold progressPercentage
  rw [if_pos ht]
  constructor
  · have e1 : 2 * (100 * a) / (2 * t) = 100 * a / t :=
      Nat.mul_div_mul_left (100 * a) t (by omega)
    calc 100 * a / t = 2 * (100 * a) / (2 * t) := e1.symm
      _ ≤ (200 * a + t) / (2 * t) := Nat.div_le_div_right (by omega)
  · have h1 : (200 * a + t) / (2 * t) * (2 * t) ≤ 200 * a + t :=
      Nat.div_mul_le_self (200 * a + t) (2 * t)
    have h2 : (200 * a + t) / (2 * t) * (2 * t) =
        2 * ((200 * a + t) / (2 * t) * t) := by ring
    rw [h2] at h1
    generalize (200 * a + t) / (2 * t) * t = p at h1 ⊢
    omega

theorem readPlanning_ok_iff (db : Db) (tid : String) (st : PlanningState) :
    readPlanning db tid = ReadResult.ok st ↔
      (db.tasks.find? (fun t => t.id == tid)).isSome ∧ st = assembledState db tid := by
  cases h : db.tasks.find? (fun t => t.id == tid) with
  | none => simp [readPlanning, h]
  | some tk => simp [readPlanning, h, eq_comm]

theorem truthyAnswer_eq_nonempty (o : Option String) :
    truthyAnswer o = (o != none && o != some "") := by
  cases o with
  | none => rfl
  | some s => cases hs : s == "" <;> simp [truthyAnswer, hs, bne]

theorem genLoop_map_sort (tid : String) (f : Nat → String) :
    ∀ (es : List (String × QTemplate)) (n : Nat),
      (genLoop tid f es n).map (fun q => q.sort_order) = List.range' n es.length := by
  intro es
  induction es with
  | nil => intro n; rfl
  | cons e rest ih =>
      intro n
      simp only [genLoop, List.map_cons, List.length_cons, List.range']
      exact congrArg (fun l => n :: l) (ih (n + 1))

theorem genLoop_sort_ge (tid : String) (f : Nat → String) :
    ∀ (es : List (String × QTemplate)) (n : Nat) (q : Question),
      q ∈ genLoop tid f es n → n ≤ q.sort_order := by
  intro es
  induction es with
  | nil => intro n q hq; simp [genLoop] at hq
  | cons e rest ih =>
      intro n q hq
      simp only [genLoop, List.mem_cons] at hq
      rcases hq with rfl | hq
      · exact Nat.le_refl n
      · exact Nat.le_of_succ_le (ih (n + 1) q hq)

theorem genLoop_mem_task_id (tid : String) (f : Nat → String) :
    ∀ (es : List (String × QTemplate)) (n : Nat) (q : Question),
      q ∈ genLoop tid f es n → q.task_id = tid := by
  intro es
  induction es with
  | nil => intro n q hq; simp [genLoop] at hq
  | cons e rest ih =>
      intro n q hq
      simp only [genLoop, List.mem_cons] at hq
      rcases hq with rfl | hq
      · rfl
      · exact ih (n + 1) q hq

theorem genLoop_map_options (tid : String) (f : Nat → String) :
    ∀ (es : List (String × QTemplate)) (n : Nat),
      (genLoop tid f es n).map (fun q => q.options) =
        es.map (fun e => e.2.options.map mkChoices) := by
  intro es
  induction es with
  | nil => intro n; rfl
  | cons e rest ih =>
      intro n
      simp only [genLoop, List.map_cons]
      exact congrArg (fun l => (mkQuestion tid (f n) e.1 e.2 n).options :: l)
        (ih (n + 1))

theorem genLoop_map_cat (tid : String) (f : Nat → String) :
    ∀ (es : List (String × QTemplate)) (n : Nat),
      (genLoop tid f es n).map (fun q => (q.category, q.question)) =
        es.map (fun e => (e.1, e.2.question)) := by
  intro es
  induction es with
  | nil => intro n; rfl
  | cons e rest ih =>
      intro n
      simp only [genLoop, List.map_cons]
      exact congrArg (fun l => (e.1, e.2.question) :: l) (ih (n + 1))

theorem insertBySort_of_le (q : Question) (l : List Question)
    (h : ∀ x ∈ l, q.sort_order ≤ x.sort_order) :
    insertBySort q l = q :: l := by
  cases l with
  | nil => rfl
  | cons x xs =>
      simp only [insertBySort]
      rw [if_pos (h x (List.mem_cons_self x xs))]

theorem sortBySort_cons (q : Question) (l : List Question) :
    sortBySort (q :: l) = insertBySort q (sortBySort l) := rfl

theorem mem_of_mem_insertBySort (q x : Question) :
    ∀ (l : List Question), x ∈ insertBySort q l → x = q ∨ x ∈ l := by
  intro l
  induction l with
  | nil => simp [insertBySort]
  | cons a as ih =>
      simp only [insertBySort]
      split
      · intro h
        simpa [List.mem_cons] using h
      · intro h
        rcases List.mem_cons.mp h with rfl | h2
        · right; exact List.mem_cons_self x as
        · rcases ih h2 with rfl | h3
          · left; rfl
          · right; exact List.mem_cons_of_mem a h3

theorem mem_of_mem_sortBySort (x : Question) :
    ∀ (l : List Question), x ∈ sortBySort l → x ∈ l := by
  intro l
  induction l with
  | nil => intro h; simp [sortBySort] at h
  | cons a as ih =>
      intro h
      rw [sortBySort_cons] at h
      rcases mem_of_mem_insertBySort a x (sortBySort as) h with rfl | h2
      · exact List.mem_cons_self x as
      · exact List.mem_cons_of_mem a (ih h2)

theorem sortBySort_genLoop (tid : String) (f : Nat → String) :
    ∀ (es : List (String × QTemplate)) (n : Nat),
      sortBySort (genLoop tid f es n) = genLoop tid f es n := by
  intro es
  induction es with
  | nil => intro n; rfl
  | cons e rest ih =>
      intro n
      rw [genLoop, sortBySort_cons, ih (n + 1)]
      refine insertBySort_of_le _ _ (fun x hx => ?_)
      exact Nat.le_of_succ_le (genLoop_sort_ge tid f rest (n + 1) x hx)

theorem find?_id_of_find?_and (qid tid : String) :
    ∀ (l : List Question) (q0 : Question),
      (l.map (fun q => q.id)).Nodup →
      l.find? (fun q => q.id == qid && q.task_id == tid) = some q0 →
      l.find? (fun q => q.id == qid) = some q0 := by
  intro l
  induction l with
  | nil => intro q0 _ h; simp [List.find?] at h
  | cons a as ih =>
      intro q0 hnd h
      rw [List.map_cons, List.nodup_cons] at hnd
      by_cases hida : (a.id == qid) = true
      · by_cases hta : (a.task_id == tid) = true
        · have hpos : (fun q => q.id == qid && q.task_id == tid) a = true := by
            simp only [hida, hta, Bool.and_self]
          rw [List.find?_cons_of_pos as hpos] at h
          injection h with h
          subst h
          exact List.find?_cons_of_pos as hida
        · have hneg : ¬ (fun q => q.id == qid && q.task_id == tid) a = true := by
            simp [hta]
          rw [List.find?_cons_of_neg as hneg] at h
          exfalso
          have hq0mem := List.mem_of_find?_eq_some h
          have hq0pred := List.find?_some h
          rw [Bool.and_eq_true] at hq0pred
          have hq0id : q0.id = qid := eq_of_beq hq0pred.1
          have haid : a.id = qid := eq_of_beq hida
          exact hnd.1 (by
            rw [haid, ← hq0id]
            exact List.mem_map_of_mem (fun q => q.id) hq0mem)
      · have hneg : ¬ (fun q => q.id == qid && q.task_id == tid) a = true := by
          simp [hida]
        rw [List.find?_cons_of_neg as hneg] at h
        rw [List.find?_cons_of_neg as hida]
        exact ih q0 hnd.2 h

theorem find?_map_update (qid v : String) (now : Nat) :
    ∀ (l : List Question) (q0 : Question),
      l.find? (fun q => q.id == qid) = some q0 →
      (l.map (updateAnswerRow qid v now)).find? (fun q => q.id == qid) =
        some { q0 with answer := some v, answered_at := some now } := by
  intro l
  induction l with
  | nil => intro q0 h; simp [List.find?] at h
  | cons a as ih =>
      intro q0 h
      rw [List.map_cons]
      by_cases hida : (a.id == qid) = true
      · rw [List.find?_cons_of_pos as hida] at h
        obtain rfl : a = q0 := by injection h
        have hupd : updateAnswerRow qid v now a =
            { a with answer := some v, answered_at := some now } := by
          simp [updateAnswerRow, hida]
        rw [hupd]
        exact List.find?_cons_of_pos (List.map (updateAnswerRow qid v now) as) hida
      · rw [List.find?_cons_of_neg as hida] at h
        have hupd : updateAnswerRow qid v now a = a := by
          simp [updateAnswerRow, hida]
        rw [hupd]
        rw [List.find?_cons_of_neg (List.map (updateAnswerRow qid v now) as) hida]
        exact ih q0 h

/-! Claim theorems. -/

set_option maxRecDepth 4000 in
/-- Claim C1, counterexample: the rounded percentage reaches 100 while a
question is still unanswered. `progressPercentage 199 200 = 100` although
`199 ≠ 200`, and on a task with 200 questions of which 199 are answered the
read model reports percentage 100 and the lock button becomes eligible. -/
theorem C1_counterexample :
    progressPercentage 199 200 = 100 ∧ 199 ≠ 200 ∧
    (stateOf (readPlanning bigDb "t1")).map
        (fun st => (st.progress.answered, st.progress.total,
                    st.progress.percentage, lockEligible st)) =
      some (199, 200, 100, true) := by
  decide

/-- Claim C1 (amended): for every planning state assembled by the read model
whose question total is between 1 and 199 — which covers every set the
generator can produce, since the catalog has 16 templates — the rounded
percentage equals 100 exactly when every question is answered, and the
lock-eligibility gate of `PlanningTab` fires exactly then. For totals of 200
or more the equivalence fails (see the counterexample). -/
theorem C1_percentage_100_iff_complete (db : Db) (tid : String)
    (st : PlanningState) (h : readPlanning db tid = ReadResult.ok st)
    (h1 : 0 < st.progress.total) (h2 : st.progress.total ≤ 199) :
    (st.progress.percentage = 100 ↔ st.progress.answered = st.progress.total) ∧
    (lockEligible st = true ↔ st.progress.answered = st.progress.total) := by
  obtain ⟨-, rfl⟩ := (readPlanning_ok_iff db tid st).mp h
  have ha : (assembledState db tid).progress.answered ≤
      (assembledState db tid).progress.total :=
    List.length_filter_le _ _
  have hiff := percentage_eq_100_iff (assembledState db tid).progress.answered
    (assembledState db tid).progress.total h1 h2 ha
  refine ⟨hiff, ?_⟩
  have hlock : lockEligible (assembledState db tid) = true ↔
      (assembledState db tid).progress.percentage = 100 := by
    simp [lockEligible]
  rw [hlock]
  exact hiff

/-- Claim C1, witness: instance of the amended theorem on a two-question
task with one answer, where the percentage is 50 and the gate is closed. -/
theorem C1_witness :
    (stAns.progress.percentage = 100 ↔ stAns.progress.answered = stAns.progress.total) ∧
    (lockEligible stAns = true ↔ stAns.progress.answered = stAns.progress.total) :=
  C1_percentage_100_iff_complete dbAns "t1" stAns (by decide) (by decide) (by decide)

/-- Claim C4: the read model computes `total` as the question count and
`answered` as the count of questions whose answer field is non-empty;
`percentage` is `0` when `total = 0` and otherwise a deterministic rounding
of `100 * answered / total`: it depends on nothing but `answered` and
`total`, and lies between the floor and the ceiling of the exact ratio.
Only facts on which exact round-half-up and IEEE-double evaluation of
`Math.round((answered / total) * 100)` agree for every input are asserted —
the double result also always lands in the floor-to-ceiling bracket, since
its error is far below one half. The specified spot values, all tie-free in
doubles, reproduce on the state itself: 3 questions with 1 answered read
33, with 2 answered 67, and 4 questions with 1 answered read 25. -/
theorem C4_progress_formula (db : Db) (tid : String) (st : PlanningState)
    (h : readPlanning db tid = ReadResult.ok st) :
    st.progress.total = st.questions.length ∧
    st.progress.answered =
      (st.questions.filter (fun q => q.answer != none && q.answer != some "")).length ∧
    (st.progress.total = 0 → st.progress.percentage = 0) ∧
    (0 < st.progress.total →
      100 * st.progress.answered / st.progress.total ≤ st.progress.percentage ∧
      st.progress.percentage * st.progress.total <
        100 * st.progress.answered + st.progress.total) ∧
    (∀ db2 tid2 st2, readPlanning db2 tid2 = ReadResult.ok st2 →
      st2.progress.answered = st.progress.answered →
      st2.progress.total = st.progress.total →
      st2.progress.percentage = st.progress.percentage) ∧
    (st.progress.total = 3 → st.progress.answered = 1 →
      st.progress.percentage = 33) ∧
    (st.progress.total = 3 → st.progress.answered = 2 →
      st.progress.percentage = 67) ∧
    (st.progress.total = 4 → st.progress.answered = 1 →
      st.progress.percentage = 25) := by
  obtain ⟨-, rfl⟩ := (readPlanning_ok_iff db tid st).mp h
  have hPct : (assembledState db tid).progress.percentage =
      progressPercentage (assembledState db tid).progress.answered
        (assembledState db tid).progress.total := rfl
  refine ⟨rfl, ?_, ?_, ?_, ?_, ?_, ?_, ?_⟩
  · show ((selectQuestions db tid).filter (fun q => truthyAnswer q.answer)).length =
      ((selectQuestions db tid).filter
        (fun q => q.answer != none && q.answer != some "")).length
    congr 1
    exact List.filter_congr (fun q _ => truthyAnswer_eq_nonempty q.answer)
  · intro h0
    rw [hPct, h0]
    exact progressPercentage_zero _
  · intro hpos
    rw [hPct]
    exact progressPercentage_bounds _ _ hpos
  · intro db2 tid2 st2 h2 hA hT
    obtain ⟨-, rfl⟩ := (readPlanning_ok_iff db2 tid2 st2).mp h2
    have hPct2 : (assembledState db2 tid2).progress.percentage =
        progressPercentage (assembledState db2 tid2).progress.answered
          (assembledState db2 tid2).progress.total := rfl
    rw [hPct2, hA, hT, hPct]
  · intro hT hA
    rw [hPct, hA, hT]
    decide
  · intro hT hA
    rw [hPct, hA, hT]
    decide
  · intro hT hA
    rw [hPct, hA, hT]
    decide

/-- Claim C4, witness: instance on a three-question task with one non-empty
answer, whose read state exercises the 33-percent spot value. -/
theorem C4_witness :
    stC4.progress.total = stC4.questions.length ∧
    stC4.progress.answered =
      (stC4.questions.filter (fun q => q.answer != none && q.answer != some "")).length ∧
    (stC4.progress.total = 0 → stC4.progress.percentage = 0) ∧
    (0 < stC4.progress.total →
      100 * stC4.progress.answered / stC4.progress.total ≤ stC4.progress.percentage ∧
      stC4.progress.percentage * stC4.progress.total <
        100 * stC4.progress.answered + stC4.progress.total) ∧
    (∀ db2 tid2 st2, readPlanning db2 tid2 = ReadResult.ok st2 →
      st2.progress.answered = stC4.progress.answered →
      st2.progress.total = stC4.progress.total →
      st2.progress.percentage = stC4.progress.percentage) ∧
    (stC4.progress.total = 3 → stC4.progress.answered = 1 →
      stC4.progress.percentage = 33) ∧
    (stC4.progress.total = 3 → stC4.progress.answered = 2 →
      stC4.progress.percentage = 67) ∧
    (stC4.progress.total = 4 → stC4.progress.answered = 1 →
      stC4.progress.percentage = 25) :=
  C4_progress_formula dbC4 "t1" stC4 (by decide)

/-- Claim C5: when one or more question rows already exist for an existing
task, a second generate call reports AlreadyGenerated and leaves the whole
database — in particular the stored question rows and their count —
unchanged. -/
theorem C5_generate_already_generated (db : Db) (tid : String)
    (f : Nat → String)
    (htask : (db.tasks.find? (fun t => t.id == tid)).isSome)
    (hq : 0 < (db.questions.filter (fun q => q.task_id == tid)).length) :
    generateOp db tid f = (GenResult.alreadyGenerated, db) := by
  obtain ⟨tk, htk⟩ := Option.isSome_iff_exists.mp htask
  simp [generateOp, htk, hq]

/-- Claim C5, witness: generate on the already-generated task `t1` of
`dbAns` fails and changes nothing. -/
theorem C5_witness :
    generateOp dbAns "t1" fStub = (GenResult.alreadyGenerated, dbAns) :=
  C5_generate_already_generated dbAns "t1" fStub (by decide) (by decide)

/-- Claim C2, counterexample: on a locked task, answering an existing
question with the empty value is rejected as invalid input (the
questionId/answer-required 400), not with Locked — so "every value" in the
claim fails for the empty string. -/
theorem C2_counterexample :
    (dbLocked.specs.find? (fun s => s.task_id == "t1")).isSome ∧
    (dbLocked.questions.find? (fun q => q.id == "q1" && q.task_id == "t1")).isSome ∧
    (answerOp dbLocked "t1" "q1" "" 9).1 = AnswerResult.invalidInput ∧
    (answerOp dbLocked "t1" "q1" "" 9).1 ≠ AnswerResult.locked := by
  decide

/-- Claim C2 (amended): once the owning task has a spec row, answering any
existing question of the task with any non-empty value — including
re-submitting the stored value — returns Locked and leaves the entire
database, in particular every stored question row, unchanged. -/
theorem C2_locked_rejects (db : Db) (tid qid v : String) (now : Nat)
    (q0 : Question) (hwf : WellFormed db) (hv : v ≠ "")
    (hq : db.questions.find? (fun q => q.id == qid && q.task_id == tid) = some q0)
    (hs : (db.specs.find? (fun s => s.task_id == tid)).isSome) :
    answerOp db tid qid v now = (AnswerResult.locked, db) := by
  have hpred := List.find?_some hq
  rw [Bool.and_eq_true] at hpred
  have hid : q0.id = qid := eq_of_beq hpred.1
  have hqidne : qid ≠ "" := hid ▸ hwf.1 q0 (List.mem_of_find?_eq_some hq)
  obtain ⟨s, hs2⟩ := Option.isSome_iff_exists.mp hs
  have hcond : (qid == "" || v == "") = false := by
    simp [beq_eq_false_iff_ne, hqidne, hv]
  simp [answerOp, hcond, hq, hs2]

/-- Claim C2, witness: re-submitting the already-stored value `done` on the
locked task returns Locked and changes nothing. -/
theorem C2_witness :
    answerOp dbLocked "t1" "q1" "done" 9 = (AnswerResult.locked, dbLocked) :=
  C2_locked_rejects dbLocked "t1" "q1" "done" 9 qLockedRow
    (by unfold WellFormed; decide) (by decide) (by decide) (by decide)

/-- Claim C7, counterexample: an answer call whose questionId is the empty
string — an id that exists nowhere — is rejected as invalid input (400),
not with NotFound, so the claim fails for the empty questionId. -/
theorem C7_counterexample :
    dbCross.questions.find? (fun q => q.id == "") = none ∧
    (answerOp dbCross "t1" "" "hello" 3).1 = AnswerResult.invalidInput ∧
    (answerOp dbCross "t1" "" "hello" 3).1 ≠ AnswerResult.notFound := by
  decide

/-- Claim C7 (amended): for every answer call with a non-empty questionId
and non-empty value, if no question row has that id under the supplied task
— the id does not exist at all, or it belongs to a different task — the
operation returns NotFound and performs no mutation. -/
theorem C7_answer_not_found (db : Db) (tid qid v : String) (now : Nat)
    (hqid : qid ≠ "") (hv : v ≠ "")
    (h : db.questions.find? (fun q => q.id == qid && q.task_id == tid) = none) :
    answerOp db tid qid v now = (AnswerResult.notFound, db) := by
  have hcond : (qid == "" || v == "") = false := by
    simp [beq_eq_false_iff_ne, hqid, hv]
  simp [answerOp, hcond, h]

/-- Claim C7, witness: question `q1` exists but belongs to task `t2`;
answering it through task `t1` returns NotFound and changes nothing. -/
theorem C7_witness :
    answerOp dbCross "t1" "q1" "hello" 3 = (AnswerResult.notFound, dbCross) :=
  C7_answer_not_found dbCross "t1" "q1" "hello" 3 (by decide) (by decide)
    (by decide)

/-- Claim C3: a successful generate call on a fresh task (task exists, no
question rows yet) persists exactly the catalog batch for that task and
returns it re-selected in `sort_order`; the sort positions are exactly
`0 .. n-1` with no gaps or duplicates (`List.range n` for the catalog size),
assigned across the whole batch in the fixed category order then template
order, with the counter never reset per category. -/
theorem C3_generated_sort_positions (db : Db) (tid : String)
    (f : Nat → String)
    (htask : (db.tasks.find? (fun t => t.id == tid)).isSome)
    (hq : db.questions.filter (fun q => q.task_id == tid) = []) :
    generateOp db tid f =
      (GenResult.ok (generatedState db tid f), generatedDb db tid f) ∧
    (generatedDb db tid f).questions.filter (fun q => q.task_id == tid) =
      generatedQuestions tid f ∧
    (generatedState db tid f).questions.map (fun q => q.sort_order) =
      List.range catalogEntries.length ∧
    (generatedState db tid f).questions.map (fun q => (q.category, q.question)) =
      catalogEntries.map (fun e => (e.1, e.2.question)) := by
  obtain ⟨tk, htk⟩ := Option.isSome_iff_exists.mp htask
  have hlen : (db.questions.filter (fun q => q.task_id == tid)).length = 0 := by
    rw [hq]; rfl
  have hfilter : (generatedDb db tid f).questions.filter
      (fun q => q.task_id == tid) = generatedQuestions tid f := by
    show (db.questions ++ generatedQuestions tid f).filter
      (fun q => q.task_id == tid) = generatedQuestions tid f
    rw [List.filter_append, hq, List.nil_append]
    refine List.filter_eq_self.mpr (fun q hmem => ?_)
    have := genLoop_mem_task_id tid f catalogEntries 0 q hmem
    simp [this]
  have hsel : (generatedState db tid f).questions = generatedQuestions tid f := by
    show selectQuestions (generatedDb db tid f) tid = generatedQuestions tid f
    rw [selectQuestions, hfilter]
    exact sortBySort_genLoop tid f catalogEntries 0
  refine ⟨?_, hfilter, ?_, ?_⟩
  · simp [generateOp, htk, hlen]
  · rw [hsel]
    rw [show generatedQuestions tid f = genLoop tid f catalogEntries 0 from rfl]
    rw [genLoop_map_sort tid f catalogEntries 0]
    exact (List.range_eq_range' catalogEntries.length).symm
  · rw [hsel]
    exact genLoop_map_cat tid f catalogEntries 0

/-- Claim C3, witness: instance on a fresh task with a stub id supply. -/
theorem C3_witness :
    generateOp dbFresh "t1" fStub =
      (GenResult.ok (generatedState dbFresh "t1" fStub),
       generatedDb dbFresh "t1" fStub) ∧
    (generatedDb dbFresh "t1" fStub).questions.filter
      (fun q => q.task_id == "t1") = generatedQuestions "t1" fStub ∧
    (generatedState dbFresh "t1" fStub).questions.map (fun q => q.sort_order) =
      List.range catalogEntries.length ∧
    (generatedState dbFresh "t1" fStub).questions.map
      (fun q => (q.category, q.question)) =
      catalogEntries.map (fun e => (e.1, e.2.question)) :=
  C3_generated_sort_positions dbFresh "t1" fStub (by decide) (by rfl)

/-- Claim C6: on a task with no spec row, answering an existing question of
that task with any non-empty value succeeds regardless of question kind
(no hypothesis constrains `question_type` and no choice set is consulted),
stores the value verbatim in the answer field, stamps the answered
timestamp with the current time, and overwrites whatever answer was stored
before — last write wins. -/
theorem C6_answer_overwrites (db : Db) (tid qid v : String) (now : Nat)
    (q0 : Question) (hwf : WellFormed db) (hv : v ≠ "")
    (hq : db.questions.find? (fun q => q.id == qid && q.task_id == tid) = some q0)
    (hs : db.specs.find? (fun s => s.task_id == tid) = none) :
    answerOp db tid qid v now =
      (AnswerResult.ok { q0 with answer := some v, answered_at := some now },
       updatedDb db qid v now) := by
  have hpred := List.find?_some hq
  rw [Bool.and_eq_true] at hpred
  have hid : q0.id = qid := eq_of_beq hpred.1
  have hqidne : qid ≠ "" := hid ▸ hwf.1 q0 (List.mem_of_find?_eq_some hq)
  have hcond : (qid == "" || v == "") = false := by
    simp [beq_eq_false_iff_ne, hqidne, hv]
  have hfind1 : db.questions.find? (fun q => q.id == qid) = some q0 :=
    find?_id_of_find?_and qid tid db.questions q0 hwf.2.1 hq
  have hfind2 := find?_map_update qid v now db.questions q0 hfind1
  simp [answerOp, hcond, hq, hs, updatedDb, hfind2]

/-- Claim C6, witness: re-answering the already-answered question `q1`
(stored answer `old`) with `new` at time 5 overwrites the answer and the
timestamp. -/
theorem C6_witness :
    answerOp dbAns "t1" "q1" "new" 5 =
      (AnswerResult.ok { q1row with answer := some "new", answered_at := some 5 },
       updatedDb dbAns "q1" "new" 5) :=
  C6_answer_overwrites dbAns "t1" "q1" "new" 5 q1row
    (by unfold WellFormed; decide) (by decide) (by decide) (by decide)

/-- Claim C8: whatever the task id and the id supply, the generated batch
carries, question by question in generation order, exactly the catalog's
choice lists, where a template with k options yields k `(identifier, label)`
pairs whose identifiers are the letters `A, B, C, …` up to the k-th letter —
the 0-indexed i-th option paired with the letter at alphabet position i and
the labels in template order — and `none` for free-text templates. -/
theorem C8_choice_identifiers (tid : String) (f : Nat → String) :
    (generatedQuestions tid f).map
        (fun q => q.options.map (fun cs => cs.map (fun c => (c.id, c.label)))) =
      [some [("A", "Generate leads/sales"), ("B", "Provide information"),
             ("C", "Collect user data"), ("D", "Build brand awareness"),
             ("E", "Other")],
       some [("A", "Conversion rate"), ("B", "Page views/traffic"),
             ("C", "Form submissions"), ("D", "User engagement"), ("E", "Other")],
       some [("A", "B2B professionals"), ("B", "B2C consumers"),
             ("C", "Existing customers"), ("D", "New prospects"), ("E", "Other")],
       none, none, none, none,
       some [("A", "Professional/Corporate"), ("B", "Modern/Minimal"),
             ("C", "Bold/Creative"), ("D", "Friendly/Casual"), ("E", "Other")],
       some [("A", "Yes, I will provide them"), ("B", "No, use your best judgment"),
             ("C", "Use existing brand from website"), ("D", "Other")],
       some [("A", "Yes, I will provide it"), ("B", "No, please write it"),
             ("C", "I have rough notes to expand"), ("D", "Other")],
       none,
       some [("A", "Static HTML/CSS"), ("B", "React/Next.js"), ("C", "WordPress"),
             ("D", "No preference"), ("E", "Other")],
       some [("A", "Form submission to email"), ("B", "CRM integration"),
             ("C", "Analytics tracking"), ("D", "None needed"), ("E", "Other")],
       some [("A", "ASAP (within 24 hours)"), ("B", "This week"), ("C", "Next week"),
             ("D", "No rush"), ("E", "Specific date")],
       none,
       some [("A", "No budget limit"), ("B", "Keep it simple/minimal"),
             ("C", "Medium complexity okay"), ("D", "Other")]] := by
  have h1 : (generatedQuestions tid f).map (fun q => q.options) =
      catalogEntries.map (fun e => e.2.options.map mkChoices) :=
    genLoop_map_options tid f catalogEntries 0
  have h2 := congrArg
    (List.map (fun o : Option (List Choice) =>
      o.map (fun cs => cs.map (fun c => (c.id, c.label))))) h1
  rw [List.map_map, List.map_map] at h2
  exact h2.trans (by decide)

/-- Claim C9: the read operation reports NotFound exactly when the task row
is absent; for every existing task it succeeds with the assembled state, in
which `isLocked` equals the presence of a spec row; and — under the
data-model invariant that a spec row implies at least one question, since
locking requires `total > 0` — a task with zero question rows reads as
`total = 0`, `percentage = 0`, `isLocked = false`. -/
theorem C9_read_model (db : Db) (tid : String) (hwf : WellFormed db) :
    (readPlanning db tid = ReadResult.notFound ↔
      db.tasks.find? (fun t => t.id == tid) = none) ∧
    (∀ tk, db.tasks.find? (fun t => t.id == tid) = some tk →
      readPlanning db tid = ReadResult.ok (assembledState db tid)) ∧
    (∀ st, readPlanning db tid = ReadResult.ok st →
      st.isLocked = (db.specs.find? (fun s => s.task_id == tid)).isSome ∧
      (db.questions.filter (fun q => q.task_id == tid) = [] →
        st.progress.total = 0 ∧ st.progress.percentage = 0 ∧
        st.isLocked = false)) := by
  refine ⟨?_, ?_, ?_⟩
  · cases h : db.tasks.find? (fun t => t.id == tid) with
    | none => simp [readPlanning, h]
    | some tk => simp [readPlanning, h]
  · intro tk htk
    simp [readPlanning, htk]
  · intro st hst
    obtain ⟨-, rfl⟩ := (readPlanning_ok_iff db tid st).mp hst
    refine ⟨rfl, ?_⟩
    intro hqnil
    have hsel : selectQuestions db tid = [] := by
      rw [selectQuestions, hqnil]; rfl
    have hspec : db.specs.find? (fun s => s.task_id == tid) = none := by
      cases hs : db.specs.find? (fun s => s.task_id == tid) with
      | none => rfl
      | some s =>
        exfalso
        have hsmem := List.mem_of_find?_eq_some hs
        have hstid : s.task_id = tid := by
          have hp := List.find?_some hs
          simp only [beq_iff_eq] at hp
          exact hp
        obtain ⟨q, hqmem, hqtid⟩ := hwf.2.2 s hsmem
        have hqq : q ∈ db.questions.filter (fun q2 => q2.task_id == tid) :=
          List.mem_filter.mpr ⟨hqmem, by simp [hqtid, hstid]⟩
        rw [hqnil] at hqq
        exact absurd hqq (List.not_mem_nil q)
    refine ⟨?_, ?_, ?_⟩
    · show (selectQuestions db tid).length = 0
      rw [hsel]; rfl
    · show progressPercentage
          ((selectQuestions db tid).filter (fun q => truthyAnswer q.answer)).length
          (selectQuestions db tid).length = 0
      rw [hsel]; rfl
    · show (db.specs.find? (fun s => s.task_id == tid)).isSome = false
      rw [hspec]; rfl

/-- Claim C9, witness: instance on `dbAns`, an existing unlocked task. -/
theorem C9_witness :
    (readPlanning dbAns "t1" = ReadResult.notFound ↔
      dbAns.tasks.find? (fun t => t.id == "t1") = none) ∧
    (∀ tk, dbAns.tasks.find? (fun t => t.id == "t1") = some tk →
      readPlanning dbAns "t1" = ReadResult.ok (assembledState dbAns "t1")) ∧
    (∀ st, readPlanning dbAns "t1" = ReadResult.ok st →
      st.isLocked = (dbAns.specs.find? (fun s => s.task_id == "t1")).isSome ∧
      (dbAns.questions.filter (fun q => q.task_id == "t1") = [] →
        st.progress.total = 0 ∧ st.progress.percentage = 0 ∧
        st.isLocked = false)) :=
  C9_read_model dbAns "t1" (by unfold WellFormed; decide)

/-- Claim C10: a successful answer call leaves the task rows and the spec
rows untouched and, position by position, leaves every question row whose id
differs from the targeted one exactly as it was; the row with the targeted
id keeps its id, task id, category, prompt, type, options and sort position,
and only its answer and answered-timestamp fields are rewritten. -/
theorem C10_answer_frame (db : Db) (tid qid v : String) (now : Nat)
    (uq : Question) (db1 : Db) (_hwf : WellFormed db)
    (h : answerOp db tid qid v now = (AnswerResult.ok uq, db1)) :
    db1.tasks = db.tasks ∧ db1.specs = db.specs ∧
    db1.questions.length = db.questions.length ∧
    (∀ (i : Nat) (r : Question), db.questions[i]? = some r → r.id ≠ qid →
      db1.questions[i]? = some r) ∧
    (∀ (i : Nat) (r : Question), db.questions[i]? = some r → r.id = qid →
      ∃ r1, db1.questions[i]? = some r1 ∧ r1.id = r.id ∧
        r1.task_id = r.task_id ∧ r1.category = r.category ∧
        r1.question = r.question ∧ r1.question_type = r.question_type ∧
        r1.options = r.options ∧ r1.sort_order = r.sort_order ∧
        r1.answer = some v ∧ r1.answered_at = some now) := by
  have hdb1 : db1 = updatedDb db qid v now := by
    simp only [answerOp] at h
    split at h
    · simp [Prod.ext_iff] at h
    · split at h
      · simp [Prod.ext_iff] at h
      · split at h
        · simp [Prod.ext_iff] at h
        · split at h
          · rw [Prod.mk.injEq] at h
            exact h.2.symm
          · simp [Prod.ext_iff] at h
  subst hdb1
  refine ⟨rfl, rfl, by simp [updatedDb], ?_, ?_⟩
  · intro i r hir hne
    show (db.questions.map (updateAnswerRow qid v now))[i]? = some r
    rw [List.getElem?_map, hir]
    have hbeq : (r.id == qid) = false := beq_eq_false_iff_ne.mpr hne
    simp [updateAnswerRow, hbeq]
  · intro i r hir heq
    have hbeq : (r.id == qid) = true := beq_iff_eq.mpr heq
    refine ⟨{ r with answer := some v, answered_at := some now }, ?_,
      rfl, rfl, rfl, rfl, rfl, rfl, rfl, rfl, rfl⟩
    show (db.questions.map (updateAnswerRow qid v now))[i]? =
      some { r with answer := some v, answered_at := some now }
    rw [List.getElem?_map, hir]
    simp [updateAnswerRow, hbeq]

/-- The database `dbAns` after answering `q1` with `new` at time 5. -/
def dbAnsUpd : Db := updatedDb dbAns "q1" "new" 5

/-- The row `q1row` after answering it with `new` at time 5. -/
def q1rowUpd : Question := { q1row with answer := some "new", answered_at := some 5 }

/-- Claim C10, witness: instance of the frame theorem on `dbAns`. -/
theorem C10_witness :
    dbAnsUpd.tasks = dbAns.tasks ∧ dbAnsUpd.specs = dbAns.specs ∧
    dbAnsUpd.questions.length = dbAns.questions.length ∧
    (∀ (i : Nat) (r : Question), dbAns.questions[i]? = some r → r.id ≠ "q1" →
      dbAnsUpd.questions[i]? = some r) ∧
    (∀ (i : Nat) (r : Question), dbAns.questions[i]? = some r → r.id = "q1" →
      ∃ r1, dbAnsUpd.questions[i]? = some r1 ∧ r1.id = r.id ∧
        r1.task_id = r.task_id ∧ r1.category = r.category ∧
        r1.question = r.question ∧ r1.question_type = r.question_type ∧
        r1.options = r.options ∧ r1.sort_order = r.sort_order ∧
        r1.answer = some "new" ∧ r1.answered_at = some 5) :=
  C10_answer_frame dbAns "t1" "q1" "new" 5 q1rowUpd dbAnsUpd
    (by unfold WellFormed; decide) (by decide)

end MissionControl
